import Mathlib

/-!
Shallow embedding of the LureQuest fishing-game core (src/core/logic.py and
the `/fish` command flow of src/core/bot.py).

Modelling conventions:
* Python `int` is `ℤ`, Python `float` is `ℚ` (every IEEE double is a rational;
  the only place where double rounding is observable — the cumulative sums of
  the rarity walk in `fishing` — is encoded with the exact dyadic rationals the
  program's float variable takes, see `RARITY_CUMULATIVE`).
* The process-wide random source is passed explicitly: `random.randint` /
  `random.uniform` become oracle functions supplied per call, constrained by
  hypotheses to stay within their bounds; `random.random` becomes the drawn
  value `r : ℚ`; `random.choice` becomes an index oracle.
* The `players.json` file state is `Option (List Entry)`: `none` is the file
  being absent, `some stats` is the parsed `"STATS"` array.
* Fallible code returns `Option` / `Except`: a Python function that returns
  `True | None` becomes an `Option` result, an uncaught exception becomes a
  distinguished error value.
-/

namespace LureQuest

/-- Python builtin `round(x)` on a real value: round half to even
(banker's rounding), as used at bot.py line 103. -/
def pythonRound (q : ℚ) : ℤ :=
  let f := ⌊q⌋
  let frac := q - (f : ℚ)
  if frac < 1/2 then f
  else if 1/2 < frac then f + 1
  else if f % 2 = 0 then f else f + 1

/-- Python `round(x, 2)`: round to two decimal places. -/
def round2 (q : ℚ) : ℚ := (pythonRound (100 * q) : ℚ) / 100

/-- logic.py `Loot`: a loot item. `value`, `xp_loot`, `weight` default to 0 at
construction and are overwritten by the three roll methods. -/
structure Loot where
  name : String
  rarity : String
  description : String
  value : ℤ
  xp_loot : ℤ
  weight : ℚ
deriving DecidableEq, Inhabited

/-- logic.py `Loot.value_loot_algo`: rolls the monetary value from the
rarity-specific `random.randint` range; unknown rarity falls to the
`case _` arm and yields 0. The random source is the oracle `randint`. -/
def value_loot_algo (randint : ℤ → ℤ → ℤ) (rarity : String) : ℤ :=
  match rarity with
  | "Common" => randint 10 50
  | "Uncommon" => randint 51 150
  | "Rare" => randint 151 500
  | "Epic" => randint 501 1500
  | "Supreme" => randint 1501 3000
  | "Mythical" => randint 3001 5000
  | "Legendary" => randint 5001 10000
  | "Trash" => randint 1 9
  | _ => 0

/-- logic.py `Loot.xp_loot_algo`: rolls the XP value; `"Trash"` is fixed 0,
unknown rarity yields 0. -/
def xp_loot_algo (randint : ℤ → ℤ → ℤ) (rarity : String) : ℤ :=
  match rarity with
  | "Common" => randint 50 100
  | "Uncommon" => randint 101 250
  | "Rare" => randint 251 500
  | "Epic" => randint 501 1000
  | "Supreme" => randint 1001 2000
  | "Mythical" => randint 2001 3500
  | "Legendary" => randint 3501 5000
  | "Trash" => 0
  | _ => 0

/-- logic.py `Loot.weight_algo`: rolls the weight as
`round(random.uniform(lo, hi), 2)`; unknown rarity yields 0.0.
The random source is the oracle `uniform`. -/
def weight_algo (uniform : ℚ → ℚ → ℚ) (rarity : String) : ℚ :=
  match rarity with
  | "Common" => round2 (uniform 1 5)
  | "Uncommon" => round2 (uniform (51/10) 10)
  | "Rare" => round2 (uniform (101/10) 20)
  | "Epic" => round2 (uniform (201/10) 30)
  | "Supreme" => round2 (uniform (301/10) 40)
  | "Mythical" => round2 (uniform (401/10) 50)
  | "Legendary" => round2 (uniform (501/10) 60)
  | "Trash" => round2 (uniform (1/10) (9/10))
  | _ => 0

/-- logic.py `Player`: in-memory player object. -/
structure Player where
  user_id : ℤ
  money : ℤ
  level : ℤ
  league : String
deriving DecidableEq, Inhabited

/-- logic.py `Player.__init__`: keeps `user_id`, `money` and `league` from the
arguments but sets `self.level = 0`, discarding the `level` argument. -/
def Player.init (user_id money level : ℤ) (league : String) : Player :=
  { user_id := user_id, money := money, level := 0, league := league }

/-- Python `str.lower()` as used on the ASCII `state` arguments of
logic.py: lower-case every character (stated by structural recursion over the
character list so that it evaluates in the kernel; extensionally this is
`String.toLower`). -/
def pyLower (s : String) : String := String.mk (s.data.map Char.toLower)

/-- One record of the `"STATS"` array persisted in players.json. -/
structure Entry where
  user_id : ℤ
  money : ℤ
  level : ℤ
  league : String
deriving DecidableEq, Inhabited

/-- First record of the `"STATS"` array with the given `user_id`, mirroring the
`for user in players_data` / `break` loops of logic.py. -/
def findEntry (uid : ℤ) : List Entry → Option Entry
  | [] => none
  | u :: rest => if u.user_id = uid then some u else findEntry uid rest

/-- logic.py `Player.load_from_leaderboard`: a missing file raises
`FileNotFoundError`, which is caught and only printed, leaving the player
unchanged; otherwise the first matching record overwrites `level`, `money`
and `league`, and an absent record leaves the player unchanged. -/
def Player.load_from_leaderboard (file : Option (List Entry)) (p : Player) : Player :=
  match file with
  | none => p
  | some stats =>
    match findEntry p.user_id stats with
    | none => p
    | some u => { p with level := u.level, money := u.money, league := u.league }

/-- logic.py `Player.level_check`, the pure core: the league label the match
statement assigns to a given `level`; every level outside the listed ranges
(that is, `level ≤ 0`) falls to the `case _` arm `"Unranked"`. -/
def level_check_league (level : ℤ) : String :=
  if 0 < level ∧ level < 1000 then "Minnow"
  else if 1000 ≤ level ∧ level < 3000 then "Guppy"
  else if 3000 ≤ level ∧ level < 5000 then "Pond"
  else if 5000 ≤ level ∧ level < 10000 then "River"
  else if 10000 ≤ level ∧ level < 15000 then "Lake"
  else if 15000 ≤ level ∧ level < 20000 then "Stream"
  else if 20000 ≤ level ∧ level < 30000 then "Bay"
  else if 30000 ≤ level ∧ level < 40000 then "Ocean"
  else if 40000 ≤ level ∧ level < 50000 then "Deep Sea"
  else if 50000 ≤ level ∧ level < 70000 then "Trophy"
  else if 70000 ≤ level ∧ level < 100000 then "Champion"
  else if 100000 ≤ level then "Legendary"
  else "Unranked"

/-- logic.py `Player.level_check`: updates `self.league` from `self.level`. -/
def Player.level_check (p : Player) : Player :=
  { p with league := level_check_league p.level }

/-- The loop body of `Player.save_to_leaderboard`: update the first record with
this `user_id` in place (then `break`); the Bool reports `user_found`. -/
def saveUpdate (p : Player) : List Entry → List Entry × Bool
  | [] => ([], false)
  | u :: rest =>
    if u.user_id = p.user_id then
      ({ u with money := p.money, level := p.level, league := p.league } :: rest, true)
    else
      let r := saveUpdate p rest
      (u :: r.1, r.2)

/-- logic.py `Player.save_to_leaderboard`: a missing file is first materialized
as `{"STATS": []}`; then the first matching record is updated in place, and if
no record matched, a new entry is appended. Returns the written STATS array. -/
def Player.save_to_leaderboard (file : Option (List Entry)) (p : Player) : List Entry :=
  let stats := file.getD []
  let r := saveUpdate p stats
  if r.2 then r.1
  else stats ++ [{ user_id := p.user_id, money := p.money, level := p.level, league := p.league }]

/-- The `for`/`else` loop of logic.py `reset_fisher`: walk the STATS array; at
the first record matching `player_tag`, zero the requested field and `break`
(→ the file is rewritten), or `return None` on an unrecognized `state`; if the
loop finishes with no match the `else` arm does `return None`. `none` here is
the Python `return None` (in which case nothing is written). -/
def resetLoop (player_tag : ℤ) (state : String) : List Entry → Option (List Entry)
  | [] => none
  | u :: rest =>
    if u.user_id = player_tag then
      if pyLower state = "money" then some ({ u with money := 0 } :: rest)
      else if pyLower state = "level" ∨ pyLower state = "levels" then
        some ({ u with level := 0 } :: rest)
      else none
    else (resetLoop player_tag state rest).map (fun rest' => u :: rest')

/-- logic.py `reset_fisher`: opening a missing file with `"r+"` raises
`FileNotFoundError`, caught by the blanket `except` → `return None`; otherwise
the loop above runs and a successful branch rewrites the file. `some stats` is
the Python `return True` together with the rewritten STATS array; `none` is the
Python `return None`, with the file left unchanged. -/
def reset_fisher (file : Option (List Entry)) (player_tag : ℤ) (state : String) :
    Option (List Entry) :=
  match file with
  | none => none
  | some stats => resetLoop player_tag state stats

/-- logic.py `delete_all_players`: opening a missing file with `"r+"` raises,
caught → `return None` with the file still absent; an existing file has its
STATS array cleared and is rewritten, `return True`. The first component is
the Python return value (`some true` = `True`, `none` = `None`), the second
the file state after the call. -/
def delete_all_players (file : Option (List Entry)) :
    Option Bool × Option (List Entry) :=
  match file with
  | none => (none, none)
  | some _ => (some true, some [])

/-- The cumulative probabilities the loop in logic.py `fishing` computes:
exact values of the IEEE-double variable `cumulative_prob` after each
`cumulative_prob += prob` over RARITY_PROBABILITIES = Trash 0.239,
Common 0.25, Uncommon 0.20, Rare 0.10, Epic 0.08, Supreme 0.08,
Mythical 0.05, Legendary 0.001 (each partial sum rounded to the nearest
double, written as its exact dyadic rational; the final sum is exactly 1.0,
and the assert `abs(total_prob - 1.0) < 1e-6` passes). -/
def RARITY_CUMULATIVE : List (String × ℚ) :=
  [("Trash", 2152720621883097/9007199254740992),
   ("Common", 4404520435568345/9007199254740992),
   ("Uncommon", 96968129476821/140737488355328),
   ("Rare", 7106680211990643/9007199254740992),
   ("Epic", 3913628076184961/4503599627370496),
   ("Supreme", 8547832092749201/9007199254740992),
   ("Mythical", 8998192055486251/9007199254740992),
   ("Legendary", 1)]

/-- The rarity-selection loop of logic.py `fishing`: return the first rarity
whose cumulative probability strictly exceeds the drawn `rand` (code tests
`rand < cumulative_prob`). If the loop finishes without a `break`,
`selected_rarity` was never assigned and the following use raises
`NameError`; that fallthrough is `none`. -/
def selectFirst (r : ℚ) : List (String × ℚ) → Option String
  | [] => none
  | (name, c) :: rest => if r < c then some name else selectFirst r rest

/-- Rarity selected by logic.py `fishing` for the drawn value `r` of
`random.random()`. -/
def selectRarity (r : ℚ) : Option String := selectFirst r RARITY_CUMULATIVE

/-- logic.py `fishing`: select a rarity for the drawn `r`, filter `catches` by
it, and return `random.choice` of the filtered list (the choice is modelled by
the index oracle `choose`, reduced mod the length), or `None` (here
`Except.ok none`) when the filtered list is empty. `Except.error ()` is the
`NameError` crash of the unassigned `selected_rarity` fallthrough. -/
def fishing (r : ℚ) (choose : ℕ) (catches : List Loot) : Except Unit (Option Loot) :=
  match selectRarity r with
  | none => Except.error ()
  | some rar =>
    let filtered := catches.filter (fun l => l.rarity = rar)
    if filtered = [] then Except.ok none
    else Except.ok (some (filtered.getD (choose % filtered.length) default))

/-- Outcome of the `/fish` command of bot.py. `noCatch` is the
"No catch available" message of the `else` branch; `crashed` is an uncaught
exception escaping the command body. -/
inductive FishOutcome where
  | crashed
  | noCatch
  | caught (loot : Loot) (weight : ℚ) (value xp : ℤ)
deriving DecidableEq

/-- bot.py `fish` (lines 98-131): calls `fishing(catches)` — the source passes
the module-level CATCHES catalog — then unconditionally evaluates
`catch.weight_algo()`, `round((catch.xp_loot_algo() * catch_weight) / 2)` and
`catch.value_loot_algo()` BEFORE the `if catch is not None` test, so a `None`
catch raises `AttributeError` (`crashed`) and the `noCatch` branch is
unreachable. On a catch: load the player, add `catch_xp` (the value roll!) to
`level`, add `catch_value` (the reward derived from the XP roll and weight) to
`money`, recompute the league, persist. Returns the outcome and the file state
after the call. -/
def fishCommand (catches : List Loot) (file : Option (List Entry)) (user_id : ℤ)
    (r : ℚ) (choose : ℕ) (uniform : ℚ → ℚ → ℚ) (randintXp randintVal : ℤ → ℤ → ℤ) :
    FishOutcome × Option (List Entry) :=
  match fishing r choose catches with
  | Except.error _ => (FishOutcome.crashed, file)
  | Except.ok none => (FishOutcome.crashed, file)
  | Except.ok (some c) =>
    let catch_weight := weight_algo uniform c.rarity
    let catch_value := pythonRound (((xp_loot_algo randintXp c.rarity : ℚ) * catch_weight) / 2)
    let catch_xp := value_loot_algo randintVal c.rarity
    let p0 := Player.init user_id 0 0 ""
    let p1 := Player.load_from_leaderboard file p0
    let p2 := { p1 with level := p1.level + catch_xp, money := p1.money + catch_value }
    let p3 := Player.level_check p2
    (FishOutcome.caught c catch_weight catch_value catch_xp,
     some (Player.save_to_leaderboard file p3))

/-- A Common catalog entry of logic.py CATCHES, used as a concrete input. -/
def goldfish : Loot :=
  { name := "Goldfish", rarity := "Common",
    description := "A small, shiny goldfish. Commonly found in ponds.",
    value := 0, xp_loot := 0, weight := 0 }

/-! Helper lemmas. -/

/-- `pythonRound` stays inside any pair of integer bounds enclosing its
argument. -/
lemma pythonRound_bounds (a b : ℤ) (q : ℚ) (ha : (a : ℚ) ≤ q) (hb : q ≤ (b : ℚ)) :
    a ≤ pythonRound q ∧ pythonRound q ≤ b := by
  have hfa : a ≤ ⌊q⌋ := Int.le_floor.mpr ha
  have hfb : ⌊q⌋ ≤ b := by exact_mod_cast (Int.floor_le q).trans hb
  simp only [pythonRound]
  split_ifs with h1 h2 h3
  · exact ⟨hfa, hfb⟩
  · refine ⟨by omega, ?_⟩
    have hq : (⌊q⌋ : ℚ) < q := by linarith
    have hqb : ⌊q⌋ < b := by exact_mod_cast hq.trans_le hb
    omega
  · exact ⟨hfa, hfb⟩
  · refine ⟨by omega, ?_⟩
    push_neg at h1
    have hq : (⌊q⌋ : ℚ) < q := by linarith
    have hqb : ⌊q⌋ < b := by exact_mod_cast hq.trans_le hb
    omega

/-- A selected rarity really is in the table, with cumulative sum
exceeding the drawn value. -/
lemma selectFirst_some_mem (r : ℚ) :
    ∀ (t : List (String × ℚ)) (s : String),
      selectFirst r t = some s → ∃ c, (s, c) ∈ t ∧ r < c := by
  intro t
  induction t with
  | nil => intro s h; simp [selectFirst] at h
  | cons p rest ih =>
    obtain ⟨name, c⟩ := p
    intro s h
    simp only [selectFirst] at h
    by_cases hrc : r < c
    · rw [if_pos hrc] at h
      injection h with hns
      subst hns
      exact ⟨c, List.mem_cons_self _ _, hrc⟩
    · rw [if_neg hrc] at h
      obtain ⟨c', hmem, hlt⟩ := ih s h
      exact ⟨c', List.mem_cons_of_mem _ hmem, hlt⟩

/-- The walk selects something as soon as one table entry exceeds the drawn
value. -/
lemma selectFirst_isSome_of_mem (r : ℚ) :
    ∀ (t : List (String × ℚ)), (∃ p ∈ t, r < p.2) → (selectFirst r t).isSome = true := by
  intro t
  induction t with
  | nil => rintro ⟨p, hp, _⟩; simp at hp
  | cons q rest ih =>
    obtain ⟨name, c⟩ := q
    rintro ⟨p, hp, hlt⟩
    simp only [selectFirst]
    by_cases hrc : r < c
    · rw [if_pos hrc]; rfl
    · rw [if_neg hrc]
      rcases List.mem_cons.mp hp with hhd | htl
      · rw [hhd] at hlt
        exact absurd hlt hrc
      · exact ih ⟨p, htl, hlt⟩

/-- Loading from the leaderboard never changes the player id. -/
lemma load_user_id (file : Option (List Entry)) (p : Player) :
    (Player.load_from_leaderboard file p).user_id = p.user_id := by
  cases file with
  | none => rfl
  | some stats =>
    simp only [Player.load_from_leaderboard]
    cases hfind : findEntry p.user_id stats <;> simp [hfind]

/-- When `saveUpdate` reports no match, the list is unchanged and the id is
absent. -/
lemma saveUpdate_snd_false (p : Player) :
    ∀ xs, (saveUpdate p xs).2 = false →
      (saveUpdate p xs).1 = xs ∧ findEntry p.user_id xs = none := by
  intro xs
  induction xs with
  | nil => intro _; exact ⟨rfl, rfl⟩
  | cons u rest ih =>
    intro h
    by_cases hu : u.user_id = p.user_id
    · simp [saveUpdate, hu] at h
    · simp only [saveUpdate, if_neg hu] at h ⊢
      obtain ⟨h1, h2⟩ := ih h
      exact ⟨by rw [h1], by simp [findEntry, hu, h2]⟩

/-- When `saveUpdate` reports a match, the updated list holds the player's
fields at the first record with the player's id. -/
lemma saveUpdate_snd_true (p : Player) :
    ∀ xs, (saveUpdate p xs).2 = true →
      findEntry p.user_id (saveUpdate p xs).1 =
        some ⟨p.user_id, p.money, p.level, p.league⟩ := by
  intro xs
  induction xs with
  | nil => intro h; simp [saveUpdate] at h
  | cons u rest ih =>
    intro h
    by_cases hu : u.user_id = p.user_id
    · simp [saveUpdate, if_pos hu, findEntry, hu]
    · simp only [saveUpdate, if_neg hu] at h ⊢
      simpa [findEntry, hu] using ih h

/-- Searching past a block that misses the id. -/
lemma findEntry_append (uid : ℤ) :
    ∀ xs ys, findEntry uid xs = none →
      findEntry uid (xs ++ ys) = findEntry uid ys := by
  intro xs
  induction xs with
  | nil => intro ys _; rfl
  | cons u rest ih =>
    intro ys h
    by_cases hu : u.user_id = uid
    · simp [findEntry, hu] at h
    · simp only [findEntry, if_neg hu, List.cons_append] at h ⊢
      exact ih ys h

/-- After `save_to_leaderboard`, looking the player up returns exactly the
saved fields. -/
lemma findEntry_save (file : Option (List Entry)) (p : Player) :
    findEntry p.user_id (Player.save_to_leaderboard file p) =
      some ⟨p.user_id, p.money, p.level, p.league⟩ := by
  unfold Player.save_to_leaderboard
  cases hb : (saveUpdate p (file.getD [])).2 with
  | false =>
    obtain ⟨_, h2⟩ := saveUpdate_snd_false p (file.getD []) hb
    simp only [hb, Bool.false_eq_true, if_false]
    rw [findEntry_append _ _ _ h2]
    simp [findEntry]
  | true =>
    simp only [hb, if_true]
    exact saveUpdate_snd_true p (file.getD []) hb

/-- The reset loop returns `None` when the id is absent, whatever the state. -/
lemma resetLoop_absent (tag : ℤ) (state : String) :
    ∀ xs, findEntry tag xs = none → resetLoop tag state xs = none := by
  intro xs
  induction xs with
  | nil => intro _; rfl
  | cons u rest ih =>
    intro h
    by_cases hu : u.user_id = tag
    · simp [findEntry, hu] at h
    · simp only [findEntry, if_neg hu] at h
      simp [resetLoop, if_neg hu, ih h]

/-- The reset loop returns `None` on any state outside money/level/levels. -/
lemma resetLoop_invalid (tag : ℤ) (state : String)
    (h1 : pyLower state ≠ "money") (h2 : pyLower state ≠ "level")
    (h3 : pyLower state ≠ "levels") :
    ∀ xs, resetLoop tag state xs = none := by
  intro xs
  induction xs with
  | nil => rfl
  | cons u rest ih =>
    by_cases hu : u.user_id = tag
    · simp [resetLoop, if_pos hu, h1, h2, h3]
    · simp [resetLoop, if_neg hu, ih]

/-- Resetting the level zeroes the level of the first matching record and
keeps its league (and every other record) unchanged. -/
lemma resetLoop_level_at (e : Entry) :
    ∀ xs ys, findEntry e.user_id xs = none →
      resetLoop e.user_id "level" (xs ++ e :: ys) =
        some (xs ++ { e with level := 0 } :: ys) := by
  have hm : pyLower "level" ≠ "money" := by decide
  have hl : pyLower "level" = "level" := by decide
  intro xs
  induction xs with
  | nil =>
    intro ys _
    simp [List.nil_append, resetLoop, if_pos rfl, if_neg hm, hl]
  | cons u rest ih =>
    intro ys h
    by_cases hu : u.user_id = e.user_id
    · simp [findEntry, hu] at h
    · simp only [findEntry, if_neg hu] at h
      simp [List.cons_append, resetLoop, if_neg hu, ih ys h]

/-- A caught outcome of the `/fish` command persists a player whose league was
just recomputed from their level, under the player's own id. -/
lemma fishCommand_caught (catches : List Loot) (file : Option (List Entry)) (uid : ℤ)
    (r : ℚ) (choose : ℕ) (u : ℚ → ℚ → ℚ) (rx rv : ℤ → ℤ → ℤ)
    (loot : Loot) (w : ℚ) (v x : ℤ) (f2 : Option (List Entry))
    (h : fishCommand catches file uid r choose u rx rv = (FishOutcome.caught loot w v x, f2)) :
    ∃ p : Player, p.user_id = uid ∧ p.league = level_check_league p.level ∧
      f2 = some (Player.save_to_leaderboard file p) := by
  unfold fishCommand at h
  cases hf : fishing r choose catches with
  | error e => rw [hf] at h; simp at h
  | ok o =>
    cases o with
    | none => rw [hf] at h; simp at h
    | some c =>
      rw [hf] at h
      simp only [Prod.mk.injEq] at h
      refine ⟨Player.level_check
        { Player.load_from_leaderboard file (Player.init uid 0 0 "") with
          level := (Player.load_from_leaderboard file (Player.init uid 0 0 "")).level +
            value_loot_algo rv c.rarity,
          money := (Player.load_from_leaderboard file (Player.init uid 0 0 "")).money +
            pythonRound (((xp_loot_algo rx c.rarity : ℚ) * weight_algo u c.rarity) / 2) },
        ?_, ?_, ?_⟩
      · simpa [Player.level_check] using load_user_id file (Player.init uid 0 0 "")
      · rfl
      · exact h.2.symm

/-! Claim theorems. -/

/-- C1: evaluation of the `/fish` flow at the claimed scenario (fresh ledger,
player 42, forced Common rarity, XP roll 80, weight roll 3.0, money roll 17):
the persisted record is money = 120 (the reward value, matching the claim) but
experience = 17 — the monetary-value roll, not the experience roll 80 — because
bot.py assigns `catch_xp = catch.value_loot_algo()` and adds it to `level`. -/
theorem c1_catch_credits_money_roll_as_experience :
    fishCommand [goldfish] none 42 (3/10) 0 (fun _ _ => (3 : ℚ)) (fun _ _ => (80 : ℤ))
        (fun _ _ => (17 : ℤ)) =
      (FishOutcome.caught goldfish 3 120 17, some [⟨42, 120, 17, "Minnow"⟩]) ∧
    (17 : ℤ) ≠ 80 := by
  refine ⟨?_, by decide⟩
  norm_num [fishCommand, fishing, selectRarity, RARITY_CUMULATIVE, selectFirst, goldfish,
    weight_algo, round2, pythonRound, xp_loot_algo, value_loot_algo, Player.init,
    Player.load_from_leaderboard, Player.level_check, level_check_league,
    Player.save_to_leaderboard, saveUpdate, findEntry]

/-- C2 counterexample: resetting the experience field of a player whose stored
rank is "Minnow" leaves experience = 0 while the stored rank stays "Minnow",
which differs from the rank "Unranked" the Progression Rules assign to 0. -/
theorem c2_reset_level_stale_rank_cex :
    reset_fisher (some [⟨1, 5, 500, "Minnow"⟩]) 1 "level" = some [⟨1, 5, 0, "Minnow"⟩] ∧
    level_check_league 0 = "Unranked" ∧ ("Minnow" : String) ≠ "Unranked" :=
  ⟨by decide, by decide, by decide⟩

/-- C2 (amended): after a catch persists, the stored rank equals the rank
derived from the stored experience; but `reset_fisher` on the experience field
zeroes the level while leaving the stored league unchanged, so the record can
be left with a rank inconsistent with experience 0. -/
theorem c2_rank_consistent_after_catch_not_reset :
    (∀ (catches : List Loot) (file : Option (List Entry)) (uid : ℤ) (r : ℚ) (choose : ℕ)
        (u : ℚ → ℚ → ℚ) (rx rv : ℤ → ℤ → ℤ) (loot : Loot) (w : ℚ) (v x : ℤ)
        (led : List Entry),
        fishCommand catches file uid r choose u rx rv =
          (FishOutcome.caught loot w v x, some led) →
        ∃ e, findEntry uid led = some e ∧ e.league = level_check_league e.level) ∧
    (∀ (xs ys : List Entry) (e : Entry),
        findEntry e.user_id xs = none →
        reset_fisher (some (xs ++ e :: ys)) e.user_id "level" =
          some (xs ++ { e with level := 0 } :: ys)) := by
  constructor
  · intro catches file uid r choose u rx rv loot w v x led h
    obtain ⟨p, hpu, hpl, hf2⟩ := fishCommand_caught catches file uid r choose u rx rv
      loot w v x (some led) h
    injection hf2 with hled
    refine ⟨⟨uid, p.money, p.level, p.league⟩, ?_, hpl⟩
    rw [hled, ← hpu]
    exact findEntry_save file p
  · intro xs ys e h
    unfold reset_fisher
    exact resetLoop_level_at e xs ys h

/-- C2 witness: both parts of the amended statement at concrete inputs. -/
theorem c2_rank_consistent_witness :
    (∃ e, findEntry 42 [(⟨42, 120, 17, "Minnow"⟩ : Entry)] = some e ∧
        e.league = level_check_league e.level) ∧
    reset_fisher (some [(⟨1, 5, 500, "Minnow"⟩ : Entry), ⟨7, 9, 300, "Minnow"⟩])
        7 "level" = some [⟨1, 5, 500, "Minnow"⟩, ⟨7, 9, 0, "Minnow"⟩] := by
  constructor
  · exact c2_rank_consistent_after_catch_not_reset.1 [goldfish] none 42 (3/10) 0
      (fun _ _ => 3) (fun _ _ => 80) (fun _ _ => 17) goldfish 3 120 17
      [⟨42, 120, 17, "Minnow"⟩]
      (by norm_num [fishCommand, fishing, selectRarity, RARITY_CUMULATIVE, selectFirst,
        goldfish, weight_algo, round2, pythonRound, xp_loot_algo, value_loot_algo,
        Player.init, Player.load_from_leaderboard, Player.level_check, level_check_league,
        Player.save_to_leaderboard, saveUpdate, findEntry])
  · exact c2_rank_consistent_after_catch_not_reset.2 [⟨1, 5, 500, "Minnow"⟩] []
      ⟨7, 9, 300, "Minnow"⟩ (by decide)

/-- C3: for every drawn value in [0,1), the rarity walk selects a defined
rarity whose cumulative (double-arithmetic) sum exceeds the draw; and since
the final cumulative sum is exactly 1.0, the no-selection case (which the code
would fail on with an unassigned `selected_rarity`) is vacuous on [0,1). -/
theorem c3_rarity_selection_total (r : ℚ) (h0 : 0 ≤ r) (h1 : r < 1) :
    (selectRarity r).isSome = true ∧
    (∀ s, selectRarity r = some s → ∃ c, (s, c) ∈ RARITY_CUMULATIVE ∧ r < c) ∧
    ((∀ p ∈ RARITY_CUMULATIVE, p.2 ≤ r) → selectRarity r = some "Legendary") := by
  refine ⟨?_, ?_, ?_⟩
  · exact selectFirst_isSome_of_mem r RARITY_CUMULATIVE ⟨("Legendary", 1), by decide, h1⟩
  · intro s h
    exact selectFirst_some_mem r RARITY_CUMULATIVE s h
  · intro hall
    exact absurd h1 (not_lt.mpr (hall ("Legendary", 1) (by decide)))

/-- C3 witness: the selection at the concrete draw 1/2. -/
theorem c3_rarity_selection_witness :
    (0 : ℚ) ≤ 1/2 ∧ (1/2 : ℚ) < 1 ∧ (selectRarity (1/2)).isSome = true :=
  ⟨by norm_num, by norm_num, (c3_rarity_selection_total (1/2) (by norm_num) (by norm_num)).1⟩

/-- C4 counterexample: for an absent player the load path leaves the league at
the constructor default, the empty string, not "Unranked". -/
theorem c4_absent_league_empty_cex :
    (Player.load_from_leaderboard none (Player.init 42 0 0 "")).league = "" ∧
    (Player.load_from_leaderboard none (Player.init 42 0 0 "")).league ≠ "Unranked" :=
  ⟨by decide, by decide⟩

/-- C4 (amended): loading an absent player never fails and yields the zeroed
default record, whose rank is the empty string rather than "Unranked". -/
theorem c4_load_absent_default (file : Option (List Entry)) (uid : ℤ)
    (h : ∀ stats, file = some stats → findEntry uid stats = none) :
    (Player.load_from_leaderboard file (Player.init uid 0 0 "")).money = 0 ∧
    (Player.load_from_leaderboard file (Player.init uid 0 0 "")).level = 0 ∧
    (Player.load_from_leaderboard file (Player.init uid 0 0 "")).league = "" := by
  cases file with
  | none => exact ⟨rfl, rfl, rfl⟩
  | some stats =>
    simp [Player.load_from_leaderboard, h stats rfl, Player.init]

/-- C4 witness: loading player 42 from an empty STATS array. -/
theorem c4_load_absent_witness :
    (Player.load_from_leaderboard (some []) (Player.init 42 0 0 "")).money = 0 ∧
    (Player.load_from_leaderboard (some []) (Player.init 42 0 0 "")).level = 0 ∧
    (Player.load_from_leaderboard (some []) (Player.init 42 0 0 "")).league = "" :=
  c4_load_absent_default (some []) 42 (by intro stats hs; injection hs with h2; subst h2; rfl)

/-- C5: with a catalog holding no template of the sampled rarity, `fishing`
returns `None` and the `/fish` command then crashes with an `AttributeError`
at `catch.weight_algo()` — evaluated before the `is not None` test — instead
of reaching the "No catch available" branch; no ledger write occurs. -/
theorem c5_no_candidate_crashes :
    fishCommand [] none 42 (3/10) 0 (fun _ _ => (3 : ℚ)) (fun _ _ => (80 : ℤ))
        (fun _ _ => (17 : ℤ)) = (FishOutcome.crashed, none) ∧
    FishOutcome.crashed ≠ FishOutcome.noCatch := by
  refine ⟨?_, by decide⟩
  norm_num [fishCommand, fishing, selectRarity, RARITY_CUMULATIVE, selectFirst]

/-- C6 counterexample: an absent player with field "money" and a present
player with field "xyz" both make `reset_fisher` return the same value
`None` — there are no distinguishable PlayerNotFound / InvalidField kinds. -/
theorem c6_failures_same_value_cex :
    reset_fisher (some [⟨1, 5, 500, "Minnow"⟩]) 2 "money" = none ∧
    reset_fisher (some [⟨1, 5, 500, "Minnow"⟩]) 1 "xyz" = none :=
  ⟨by decide, by decide⟩

/-- C6 (amended): `reset_fisher` signals failure with the single value `None`
both for a playerId absent from the ledger (with any field) and for a field
name outside money/level/levels (case-insensitively, with any ledger); the two
failure kinds are not distinguishable in the return value. -/
theorem c6_reset_failure_values :
    (∀ (stats : List Entry) (uid : ℤ) (state : String),
        findEntry uid stats = none → reset_fisher (some stats) uid state = none) ∧
    (∀ (file : Option (List Entry)) (uid : ℤ) (state : String),
        pyLower state ≠ "money" → pyLower state ≠ "level" → pyLower state ≠ "levels" →
        reset_fisher file uid state = none) := by
  constructor
  · intro stats uid state h
    unfold reset_fisher
    exact resetLoop_absent uid state stats h
  · intro file uid state h1 h2 h3
    cases file with
    | none => rfl
    | some stats =>
      unfold reset_fisher
      exact resetLoop_invalid uid state h1 h2 h3 stats

/-- C6 witness: both failure modes at concrete inputs. -/
theorem c6_reset_failure_witness :
    reset_fisher (some [(⟨1, 5, 500, "Minnow"⟩ : Entry)]) 9 "money" = none ∧
    reset_fisher (some [(⟨1, 5, 500, "Minnow"⟩ : Entry)]) 1 "banana" = none :=
  ⟨c6_reset_failure_values.1 [⟨1, 5, 500, "Minnow"⟩] 9 "money" (by decide),
   c6_reset_failure_values.2 (some [⟨1, 5, 500, "Minnow"⟩]) 1 "banana"
     (by decide) (by decide) (by decide)⟩

/-- C7: the league thresholds are boundary-exact, and every negative
experience value falls to "Unranked". -/
theorem c7_rank_boundaries (e : ℤ) (h : e < 0) :
    level_check_league 0 = "Unranked" ∧ level_check_league 999 = "Minnow" ∧
    level_check_league 1000 = "Guppy" ∧ level_check_league 99999 = "Champion" ∧
    level_check_league 100000 = "Legendary" ∧ level_check_league e = "Unranked" := by
  refine ⟨?_, ?_, ?_, ?_, ?_, ?_⟩
  · norm_num [level_check_league]
  · norm_num [level_check_league]
  · norm_num [level_check_league]
  · norm_num [level_check_league]
  · norm_num [level_check_league]
  · unfold level_check_league
    iterate 12 rw [if_neg (by omega)]

/-- C7 witness: the negative case at -5. -/
theorem c7_rank_boundaries_witness :
    (-5 : ℤ) < 0 ∧ level_check_league (-5) = "Unranked" :=
  ⟨by norm_num, (c7_rank_boundaries (-5) (by norm_num)).2.2.2.2.2⟩

/-- C8: a Trash roll always has XP 0 and hence reward 0, and a Legendary roll
stays inside money [5001,10000], XP [3501,5000] and weight [50.10,60.00],
whenever the random oracles respect their randint/uniform bounds. -/
theorem c8_roll_bounds (ri rx : ℤ → ℤ → ℤ) (u : ℚ → ℚ → ℚ) (w : ℚ)
    (hri : ∀ a b, a ≤ b → a ≤ ri a b ∧ ri a b ≤ b)
    (hrx : ∀ a b, a ≤ b → a ≤ rx a b ∧ rx a b ≤ b)
    (hu : ∀ a b, a ≤ b → a ≤ u a b ∧ u a b ≤ b) :
    xp_loot_algo rx "Trash" = 0 ∧
    pythonRound ((xp_loot_algo rx "Trash" : ℚ) * w / 2) = 0 ∧
    (5001 ≤ value_loot_algo ri "Legendary" ∧ value_loot_algo ri "Legendary" ≤ 10000) ∧
    (3501 ≤ xp_loot_algo rx "Legendary" ∧ xp_loot_algo rx "Legendary" ≤ 5000) ∧
    (501/10 ≤ weight_algo u "Legendary" ∧ weight_algo u "Legendary" ≤ 60) := by
  have htrash : xp_loot_algo rx "Trash" = 0 := rfl
  refine ⟨htrash, ?_, hri 5001 10000 (by norm_num), hrx 3501 5000 (by norm_num), ?_⟩
  · rw [htrash]
    norm_num [pythonRound]
  · obtain ⟨hul, hur⟩ := hu (501/10) 60 (by norm_num)
    have hw : weight_algo u "Legendary" = round2 (u (501/10) 60) := rfl
    rw [hw, round2]
    obtain ⟨hl, hr⟩ := pythonRound_bounds 5010 6000 (100 * u (501/10) 60)
      (by push_cast; linarith) (by push_cast; linarith)
    have hcl : (5010 : ℚ) ≤ (pythonRound (100 * u (501/10) 60) : ℚ) := by exact_mod_cast hl
    have hcr : (pythonRound (100 * u (501/10) 60) : ℚ) ≤ 6000 := by exact_mod_cast hr
    constructor <;> linarith

/-- C8 witness: the bounds at the lower-end oracles. -/
theorem c8_roll_bounds_witness :
    xp_loot_algo (fun a _ => a) "Trash" = 0 ∧
    pythonRound ((xp_loot_algo (fun a _ => a) "Trash" : ℚ) * 7 / 2) = 0 ∧
    (5001 ≤ value_loot_algo (fun a _ => a) "Legendary" ∧
      value_loot_algo (fun a _ => a) "Legendary" ≤ 10000) ∧
    (3501 ≤ xp_loot_algo (fun a _ => a) "Legendary" ∧
      xp_loot_algo (fun a _ => a) "Legendary" ≤ 5000) ∧
    (501/10 ≤ weight_algo (fun a _ => a) "Legendary" ∧
      weight_algo (fun a _ => a) "Legendary" ≤ 60) :=
  c8_roll_bounds (fun a _ => a) (fun a _ => a) (fun a _ => a) 7
    (fun a b h => ⟨le_refl a, h⟩) (fun a b h => ⟨le_refl a, h⟩)
    (fun a b h => ⟨le_refl a, h⟩)

/-- C9 counterexample: when the backing document is absent, the first
`delete_all_players` call does not succeed (it returns `None`). -/
theorem c9_delete_all_absent_cex : (delete_all_players none).1 ≠ some true := by decide

/-- C9 (amended): over states where the backing document exists,
`delete_all_players` succeeds and leaves an empty ledger, and calling it again
on the resulting state succeeds again with an empty ledger; when the document
is absent it returns `None` and does not materialize the file. -/
theorem c9_delete_all_idempotent :
    (∀ stats : List Entry,
        delete_all_players (some stats) = (some true, some []) ∧
        delete_all_players (delete_all_players (some stats)).2 = (some true, some [])) ∧
    delete_all_players none = (none, none) :=
  ⟨fun _ => ⟨rfl, rfl⟩, rfl⟩

/-- C10: the Player constructor discards the supplied level — the constructed
record always has level 0 — while user_id and money are kept. -/
theorem c10_init_discards_level :
    ∀ (uid m lvl : ℤ) (lg : String),
      (Player.init uid m lvl lg).level = 0 ∧ (Player.init uid m lvl lg).money = m ∧
      (Player.init uid m lvl lg).user_id = uid :=
  fun _ _ _ _ => ⟨rfl, rfl, rfl⟩

end LureQuest
